import Mathlib

/-!
Shallow embedding of the REANA-server request-authorization and
workflow-dispatch pipeline (reana_server/utils.py and
reana_server/rest/analyses.py), with theorems checking the
natural-language specification against it.

Modelling conventions:
* the user database (reana_db `User` table) is a `List User`; a SQLAlchemy
  session commit is `commit`, which atomically appends the pending rows and
  enforces the uniqueness constraints the data model declares (unique id,
  unique email, unique access token), raising `integrityError` otherwise;
  a failed commit leaves the committed store unchanged (rollback);
* Python exceptions are the `PyError` type; functions that can raise return
  `Except PyError _`. Typed errors named only by the spec's error taxonomy
  (never raised anywhere in the code) get their own constructors so that a
  refutation can state their absence;
* external collaborators (the workflow-controller client, `requests.get`,
  `yaml.load`, the per-user secrets store, the random token generator, the
  database id generator) are passed in as explicit function/value
  parameters, so that theorems can quantify over their behaviour and count
  the calls made to them;
* JSON / YAML documents are the inductive `Json`; dictionary subscription
  `d[k]` is `jsonGet`, raising `keyError` on a missing key exactly as
  Python does.
-/

/-- Structured documents (JSON bodies, parsed YAML, webhook payloads). -/
inductive Json where
  | null : Json
  | bool (b : Bool) : Json
  | num (n : Int) : Json
  | str (s : String) : Json
  | arr (elems : List Json) : Json
  | obj (fields : List (String × Json)) : Json

/-- Python exceptions relevant to the embedded code.  The constructors
`unsupportedEventError`, `upstreamFetchError` and `malformedSpecError` come
from the spec's error taxonomy and are raised nowhere in the code: they exist
so theorems can state that the code never produces them. -/
inductive PyError where
  | valueError (msg : String) : PyError
  | keyError (key : String) : PyError
  | attributeError : PyError
  | typeError : PyError
  | indexError : PyError
  | integrityError : PyError
  | multipleResultsFound : PyError
  | unboundLocalError : PyError
  | exc (msg : String) : PyError
  | unsupportedEventError : PyError
  | upstreamFetchError : PyError
  | malformedSpecError : PyError
deriving Repr, DecidableEq

/-- Row of the reana_db `User` table: `(id_, email, access_token)`. -/
structure User where
  id_ : String
  email : String
  access_token : String
deriving Repr, DecidableEq

/-- Python `d[k]` on a parsed JSON/YAML document: `keyError` when the key is
absent, `typeError` when subscripting a non-object. -/
def jsonGet (j : Json) (k : String) : Except PyError Json :=
  match j with
  | .obj fields =>
      match fields.lookup k with
      | some v => .ok v
      | none => .error (.keyError k)
  | _ => .error .typeError

/-- SQLAlchemy `Query.one_or_none`: `none` for no row, the row when unique,
`MultipleResultsFound` otherwise. -/
def one_or_none {α : Type} : List α → Except PyError (Option α)
  | [] => .ok none
  | [a] => .ok (some a)
  | _ :: _ :: _ => .error .multipleResultsFound

/-- Boolean no-duplicates check on a list of strings (one uniqueness
constraint of the table). -/
def distinct : List String → Bool
  | [] => true
  | x :: xs => !(xs.contains x) && distinct xs

/-- Uniqueness constraints of the `User` table (id is the primary key; email
and access token are unique per the data model). -/
def dbConstraintsOk (db : List User) : Bool :=
  distinct (db.map (fun u => u.id_)) &&
  distinct (db.map (fun u => u.email)) &&
  distinct (db.map (fun u => u.access_token))

/-- `Session.commit()` with `pending` rows added: atomically appends them all
or, on a uniqueness violation, raises `IntegrityError` leaving the committed
store unchanged. -/
def commit (db pending : List User) : Except PyError (List User) :=
  if dbConstraintsOk (db ++ pending) then .ok (db ++ pending)
  else .error .integrityError

/-- Store state after an operation returning the new store on success: an
error rolls back, leaving the original store. -/
def storeAfter (db : List User) (r : Except PyError (List User)) : List User :=
  match r with
  | .ok db2 => db2
  | .error _ => db

/-- `ADMIN_USER_ID` from reana_server.config: the configured fixed id of the
distinguished admin identity (its concrete value is opaque to the core). -/
def ADMIN_USER_ID : String := "00000000-0000-0000-0000-000000000000"

/-- `get_user_from_token` (utils.py:47-53): exact-match lookup of a user by
access token; `ValueError` when no user holds the token. -/
def get_user_from_token (db : List User) (access_token : String) :
    Except PyError User := do
  let user ← one_or_none (db.filter (fun u => u.access_token == access_token))
  match user with
  | none => .error (.valueError "Token not valid.")
  | some u => .ok u

/-- Admin-token gate repeated in `_get_users`, `_create_user`,
`_export_users`, `_import_users`: load the admin row by `ADMIN_USER_ID` with
`one_or_none`, then dereference `admin.access_token` (an `AttributeError` on
`None` when the admin row is absent) and compare with `!=`. -/
def admin_token_check (db : List User) (admin_access_token : String) :
    Except PyError Unit := do
  let admin ← one_or_none (db.filter (fun u => u.id_ == ADMIN_USER_ID))
  match admin with
  | none => .error .attributeError
  | some a =>
      if admin_access_token ≠ a.access_token then
        .error (.valueError "Admin access token invalid.")
      else
        .ok ()

/-- `_get_users` (utils.py:56-69): admin gate, then conjunctive filter over
the optionally-supplied id / email / access-token criteria (an absent field
is not filtered on). -/
def _get_users (db : List User) (_id email user_access_token : Option String)
    (admin_access_token : String) : Except PyError (List User) := do
  admin_token_check db admin_access_token
  .ok (db.filter (fun u =>
    (_id.all (fun v => v == u.id_)) &&
    (email.all (fun v => v == u.email)) &&
    (user_access_token.all (fun v => v == u.access_token))))

/-- `_create_user` (utils.py:72-89): admin gate, generate a token when none
supplied (`secrets.token_urlsafe(16)`, passed in as `generated_token`; the
database generates the row id, passed in as `generated_id`), insert and
commit; an `IntegrityError` is caught, rolled back and re-raised as
`ValueError`. -/
def _create_user (db : List User) (email : String)
    (user_access_token : Option String) (admin_access_token : String)
    (generated_token generated_id : String) :
    Except PyError (User × List User) := do
  admin_token_check db admin_access_token
  let tok := match user_access_token with
    | none => generated_token
    | some t => t
  let user : User := ⟨generated_id, email, tok⟩
  match commit db [user] with
  | .ok db2 => .ok (user, db2)
  | .error _ =>
      .error (.valueError "Could not create user, possible constraint violation")

/-- `_export_users` (utils.py:92-105): admin gate, then one CSV row
`[id_, email, access_token]` per user, in table order, with no header row
(the byte-level CSV encoding is an external concern; rows are kept
structured). -/
def _export_users (db : List User) (admin_access_token : String) :
    Except PyError (List (List String)) := do
  admin_token_check db admin_access_token
  .ok (db.map (fun u => [u.id_, u.email, u.access_token]))

/-- Python `row[i]` on a CSV row: `IndexError` when the row is too short. -/
def rowGet (r : List String) (i : Nat) : Except PyError String :=
  match r.get? i with
  | some s => .ok s
  | none => .error .indexError

/-- Loop body of `_import_users`: build
`User(id_=row[0], email=row[1], access_token=row[2])` for each row, verbatim,
in order. -/
def rowsToUsers : List (List String) → Except PyError (List User)
  | [] => .ok []
  | r :: rs => do
      let i ← rowGet r 0
      let e ← rowGet r 1
      let t ← rowGet r 2
      let us ← rowsToUsers rs
      .ok (⟨i, e, t⟩ :: us)

/-- `_import_users` (utils.py:108-124): admin gate, add one user per CSV row
with id, email and access token taken verbatim from the row, then a single
commit (so a uniqueness violation aborts the whole import with nothing
persisted). -/
def _import_users (db : List User) (admin_access_token : String)
    (rows : List (List String)) : Except PyError (List User) := do
  admin_token_check db admin_access_token
  let pending ← rowsToUsers rows
  commit db pending

/-- `_create_and_associate_reana_user` (utils.py:127-149): look the user up
by the email from the external account event; return the first match when
one exists, otherwise create a user with a freshly generated token
(`generated_token`) and database-generated id (`generated_id`) and commit;
an `IntegrityError` is rolled back and re-raised as `ValueError`.  Returns
the user together with the resulting store. -/
def _create_and_associate_reana_user (db : List User) (user_email : String)
    (generated_token generated_id : String) :
    Except PyError (User × List User) :=
  match db.filter (fun u => u.email == user_email) with
  | u :: _ => .ok (u, db)
  | [] =>
      let user : User := ⟨generated_id, user_email, generated_token⟩
      match commit db [user] with
      | .ok db2 => .ok (user, db2)
      | .error _ =>
          .error (.valueError "Could not create user, possible constraint violation")

/-- Message text Python attaches to each exception (`str(e)` at the Flask
boundary); only its existence matters to the spec, not its exact words. -/
def pyErrMsg : PyError → String
  | .valueError m => m
  | .keyError k => k
  | .attributeError => "NoneType object has no attribute access_token"
  | .typeError => "object is not subscriptable"
  | .indexError => "list index out of range"
  | .integrityError => "UNIQUE constraint failed"
  | .multipleResultsFound => "Multiple rows were found"
  | .unboundLocalError => "local variable referenced before assignment"
  | .exc m => m
  | .unsupportedEventError => "unsupported event"
  | .upstreamFetchError => "upstream fetch failed"
  | .malformedSpecError => "malformed specification"

/-- Inbound create-analysis HTTP request: query args (`request.args.get`,
absent args are `none`) and the multipart files, each already decoded from
its JSON bytes (the byte-level `json.loads` mechanics are external). -/
structure AnalysisRequest where
  workflow_engine : Option String
  organization : Option String
  user : Option String
  files : List (String × Json)

/-- One call to the workflow-controller collaborator
`create_yadage_workflow(yadage_payload, organization, user)`. -/
structure DispatchCall where
  yadage_payload : Json
  organization : Option String
  user : Option String

/-- HTTP response at the Flask boundary: JSON body and status code. -/
structure HttpResponse where
  body : Json
  status : Nat

/-- Exception-to-response mapping of `create_analysis` (analyses.py:183-186):
`except KeyError` gives 400, every other exception gives 500, both with a
`{"message": str(e)}` body. -/
def errorResponse (e : PyError) : HttpResponse :=
  match e with
  | .keyError k => ⟨Json.obj [("message", Json.str (pyErrMsg (.keyError k)))], 400⟩
  | e => ⟨Json.obj [("message", Json.str (pyErrMsg e))], 500⟩

/-- Dict literal built at analyses.py:175-179: the four engine-specific
fields extracted from the uploaded document, each raising `KeyError` when
absent, in Python evaluation order. -/
def build_yadage_payload (payload : Json) : Except PyError Json := do
  let t ← jsonGet payload "toplevel"
  let w ← jsonGet payload "workflow"
  let n ← jsonGet payload "nparallel"
  let p ← jsonGet payload "preset_pars"
  .ok (Json.obj [("toplevel", t), ("workflow", w), ("nparallel", n),
                 ("preset_pars", p)])

/-- `create_analysis` (analyses.py:110-186).  `engines` is the configured
`AVAILABLE_WORKFLOW_ENGINES` allow-list; `rwc` is the workflow-controller
collaborator.  Returns the HTTP response together with the list of
collaborator calls made.  Faithful details: an absent or unlisted engine
raises a plain `Exception` (caught as 500, not 400); a missing
`analysis_payload` file raises `KeyError` (400); a listed engine other than
`yadage` leaves `res` unassigned, so `jsonify(res)` raises
`UnboundLocalError` (500). -/
def create_analysis (engines : List String) (req : AnalysisRequest)
    (rwc : DispatchCall → Except PyError Json) :
    HttpResponse × List DispatchCall :=
  let engineOk : Bool := match req.workflow_engine with
    | some e => engines.contains e
    | none => false
  if !engineOk then
    (errorResponse (.exc "Unknown workflow engine"), [])
  else
    match req.files.lookup "analysis_payload" with
    | none => (errorResponse (.keyError "analysis_payload"), [])
    | some payload =>
        if req.workflow_engine == some "yadage" then
          match build_yadage_payload payload with
          | .error e => (errorResponse e, [])
          | .ok yp =>
              let call : DispatchCall := ⟨yp, req.organization, req.user⟩
              match rwc call with
              | .ok res => (⟨res, 200⟩, [call])
              | .error e => (errorResponse e, [call])
        else
          (errorResponse .unboundLocalError, [])

/-- Result of `requests.get`: HTTP status code and raw body.  The embedded
code never inspects `status_code`. -/
structure RawResponse where
  status_code : Nat
  content : String

/-- `REANA_GITLAB_URL` from reana_server.config: the configured GitLab base
URL (opaque to the core; it only prefixes the raw-file URL). -/
def REANA_GITLAB_URL : String := "https://gitlab.example.org"

/-- Python `str()` of a scalar JSON value interpolated into the raw-file URL
(composite values never reach the URL in practice; their rendering is
immaterial since the URL is consumed only by the injected `http_get`
collaborator). -/
def jsonScalarStr : Json → String
  | .null => "None"
  | .bool true => "True"
  | .bool false => "False"
  | .num n => toString n
  | .str s => s
  | .arr _ => "array"
  | .obj _ => "object"

/-- The GitLab raw-file URL of utils.py:160-161 with
`.format(project_id, "reana.yaml", branch, gitlab_token)` applied. -/
def gitlab_api_url (project_id branch : Json) (gitlab_token : String) : String :=
  REANA_GITLAB_URL ++ "/api/v4/projects/" ++ jsonScalarStr project_id ++
  "/repository/files/reana.yaml/raw?ref=" ++ jsonScalarStr branch ++
  "&access_token=" ++ gitlab_token

/-- `_get_reana_yaml_from_gitlab` (utils.py:159-176).  `gitlab_token` is the
value fetched from the per-user secrets store; `http_get` is `requests.get`;
`yaml_load` is `yaml.load` applied to the response content.  Faithful
details: only `push` and `merge_request` assign `branch`/`commit_sha`; any
other `object_kind` leaves them unassigned, so the URL `.format` call raises
`UnboundLocalError` (after the secret fetch and the `project.id` lookup);
the response status is never checked, and the body is fed to the YAML parser
unconditionally. -/
def _get_reana_yaml_from_gitlab (webhook_data : Json) (gitlab_token : String)
    (http_get : String → Except PyError RawResponse)
    (yaml_load : String → Except PyError Json) :
    Except PyError (Json × Json × Json × Json) := do
  let kind ← jsonGet webhook_data "object_kind"
  let bc : Option (Json × Json) ←
    match kind with
    | .str "push" => do
        let proj ← jsonGet webhook_data "project"
        let branch ← jsonGet proj "default_branch"
        let sha ← jsonGet webhook_data "checkout_sha"
        pure (some (branch, sha))
    | .str "merge_request" => do
        let oa ← jsonGet webhook_data "object_attributes"
        let branch ← jsonGet oa "source_branch"
        let lc ← jsonGet oa "last_commit"
        let cid ← jsonGet lc "id"
        pure (some (branch, cid))
    | _ => pure none
  let proj ← jsonGet webhook_data "project"
  let project_id ← jsonGet proj "id"
  match bc with
  | none => .error .unboundLocalError
  | some (branch, commit_sha) => do
      let resp ← http_get (gitlab_api_url project_id branch gitlab_token)
      let spec ← yaml_load resp.content
      let path ← jsonGet proj "path_with_namespace"
      .ok (spec, path, branch, commit_sha)

/-! ## Helper lemmas -/

theorem admin_token_check_found (db : List User) (adminU : User) (t : String)
    (hadmin : db.filter (fun u => u.id_ == ADMIN_USER_ID) = [adminU]) :
    admin_token_check db t =
      (if t = adminU.access_token then Except.ok ()
       else Except.error (PyError.valueError "Admin access token invalid.")) := by
  unfold admin_token_check
  rw [hadmin]
  by_cases h : t = adminU.access_token <;>
    simp [one_or_none, h, Bind.bind, Except.bind]

theorem admin_token_check_absent (db : List User) (t : String)
    (h : db.filter (fun u => u.id_ == ADMIN_USER_ID) = []) :
    admin_token_check db t = Except.error PyError.attributeError := by
  unfold admin_token_check
  rw [h]
  rfl

/-! ## Claim theorems -/

/-- Claim C8: when exactly one user record stores the supplied access token,
`get_user_from_token` returns that user and no other; when no record stores
it, it fails with the authentication `ValueError` ("Token not valid."). -/
theorem c8_resolve_token (db : List User) (t : String) (u : User) :
    (db.filter (fun v => v.access_token == t) = [u] →
      get_user_from_token db t = Except.ok u) ∧
    (db.filter (fun v => v.access_token == t) = [] →
      get_user_from_token db t =
        Except.error (PyError.valueError "Token not valid.")) := by
  constructor <;> intro h <;> (unfold get_user_from_token; rw [h]; rfl)

/-- Witness for C8 at a concrete one-user store: the stored token resolves to
its owner, a wrong token fails. -/
theorem c8_resolve_token_witness :
    get_user_from_token [⟨"id1", "a@b.org", "tok1"⟩] "tok1" =
      Except.ok ⟨"id1", "a@b.org", "tok1"⟩ ∧
    get_user_from_token [⟨"id1", "a@b.org", "tok1"⟩] "bad" =
      Except.error (PyError.valueError "Token not valid.") :=
  ⟨(c8_resolve_token [⟨"id1", "a@b.org", "tok1"⟩] "tok1"
      ⟨"id1", "a@b.org", "tok1"⟩).1 (by rfl),
   (c8_resolve_token [⟨"id1", "a@b.org", "tok1"⟩] "bad"
      ⟨"id1", "a@b.org", "tok1"⟩).2 (by rfl)⟩

/-- Claim C5: with the admin record present, the admin gate (shown on
`_get_users`, the gate every administrative operation runs first) succeeds
exactly when the candidate token is string-equal to the admin record's
stored token; every other value — proper prefixes and suffixes included,
since they are unequal strings — fails with the authorization `ValueError`
("Admin access token invalid."). -/
theorem c5_require_admin (db : List User) (adminU : User)
    (_id em utok : Option String) (t : String)
    (hadmin : db.filter (fun u => u.id_ == ADMIN_USER_ID) = [adminU]) :
    ((∃ r, _get_users db _id em utok t = Except.ok r) ↔
      t = adminU.access_token) ∧
    (t ≠ adminU.access_token →
      _get_users db _id em utok t =
        Except.error (PyError.valueError "Admin access token invalid.")) := by
  have hred := admin_token_check_found db adminU t hadmin
  unfold _get_users
  rw [hred]
  by_cases h : t = adminU.access_token <;>
    simp [h, Bind.bind, Except.bind]

/-- Witness for C5 at a concrete store: the exact admin token is accepted
while its proper prefix "admin" is rejected. -/
theorem c5_require_admin_witness :
    (∃ r, _get_users [⟨ADMIN_USER_ID, "admin@example.org", "admintok"⟩]
      none none none "admintok" = Except.ok r) ∧
    _get_users [⟨ADMIN_USER_ID, "admin@example.org", "admintok"⟩]
      none none none "admin" =
      Except.error (PyError.valueError "Admin access token invalid.") :=
  ⟨(c5_require_admin [⟨ADMIN_USER_ID, "admin@example.org", "admintok"⟩]
      ⟨ADMIN_USER_ID, "admin@example.org", "admintok"⟩
      none none none "admintok" (by rfl)).1.mpr rfl,
   (c5_require_admin [⟨ADMIN_USER_ID, "admin@example.org", "admintok"⟩]
      ⟨ADMIN_USER_ID, "admin@example.org", "admintok"⟩
      none none none "admin" (by rfl)).2 (by decide)⟩

/-- Claim C10: when no user record carries the configured admin id, every
administrative operation (`_get_users`, `_export_users`, `_import_users`,
`_create_user`) dereferences the absent admin record and fails with the
untyped `AttributeError`, never reaching the typed authorization
`ValueError`. -/
theorem c10_missing_admin (db : List User) (atok : String)
    (_id em utok : Option String) (email gtok gid : String)
    (uatok : Option String) (rows : List (List String))
    (h : db.filter (fun u => u.id_ == ADMIN_USER_ID) = []) :
    _get_users db _id em utok atok = Except.error PyError.attributeError ∧
    _export_users db atok = Except.error PyError.attributeError ∧
    _import_users db atok rows = Except.error PyError.attributeError ∧
    _create_user db email uatok atok gtok gid =
      Except.error PyError.attributeError := by
  have hred := admin_token_check_absent db atok h
  refine ⟨?_, ?_, ?_, ?_⟩
  · unfold _get_users; rw [hred]; rfl
  · unfold _export_users; rw [hred]; rfl
  · unfold _import_users; rw [hred]; rfl
  · unfold _create_user; rw [hred]; rfl

/-- Witness for C10 at the empty store: all four administrative operations
fail with the untyped `AttributeError`. -/
theorem c10_missing_admin_witness :
    _get_users [] none none none "t" = Except.error PyError.attributeError ∧
    _export_users [] "t" = Except.error PyError.attributeError ∧
    _import_users [] "t" [] = Except.error PyError.attributeError ∧
    _create_user [] "e@x.org" none "t" "gtok" "gid" =
      Except.error PyError.attributeError :=
  c10_missing_admin [] "t" none none none "e@x.org" "gtok" "gid" none []
    (by rfl)

theorem distinct_iff_nodup (l : List String) : distinct l = true ↔ l.Nodup := by
  induction l with
  | nil => simp [distinct]
  | cons x xs ih =>
      simp [distinct, ih, List.nodup_cons, List.elem_iff]

theorem filter_email_len_le_one (db : List User) (e : String)
    (h : (db.map (fun v => v.email)).Nodup) :
    (db.filter (fun v => v.email == e)).length ≤ 1 := by
  induction db with
  | nil => simp
  | cons u us ih =>
      rw [List.map_cons, List.nodup_cons] at h
      obtain ⟨hu, hus⟩ := h
      by_cases he : (u.email == e) = true
      · have heq : u.email = e := by simpa using he
        have hrest : us.filter (fun v => v.email == e) = [] := by
          rw [List.filter_eq_nil_iff]
          intro v hv
          simp only [beq_iff_eq]
          intro hve
          exact hu (List.mem_map.mpr ⟨v, hv, by rw [hve, heq]⟩)
        simp [List.filter_cons, he, hrest]
      · simp only [List.filter_cons, he, if_false]
        exact ih hus

theorem commit_singleton (db : List User) (u : User)
    (hc : dbConstraintsOk db = true)
    (hid : ¬ u.id_ ∈ db.map (fun v => v.id_))
    (hem : ¬ u.email ∈ db.map (fun v => v.email))
    (htok : ¬ u.access_token ∈ db.map (fun v => v.access_token)) :
    commit db [u] = Except.ok (db ++ [u]) := by
  have h1 : dbConstraintsOk (db ++ [u]) = true := by
    simp only [dbConstraintsOk, Bool.and_eq_true, distinct_iff_nodup,
      List.map_append, List.map_cons, List.map_nil] at hc ⊢
    obtain ⟨⟨hi, he⟩, ht⟩ := hc
    refine ⟨⟨?_, ?_⟩, ?_⟩
    · rw [List.nodup_append]
      exact ⟨hi, List.nodup_singleton _, fun a ha hax => by
        simp at hax; subst hax; exact hid ha⟩
    · rw [List.nodup_append]
      exact ⟨he, List.nodup_singleton _, fun a ha hax => by
        simp at hax; subst hax; exact hem ha⟩
    · rw [List.nodup_append]
      exact ⟨ht, List.nodup_singleton _, fun a ha hax => by
        simp at hax; subst hax; exact htok ha⟩
  simp [commit, h1]

/-- Claim C9: `_create_and_associate_reana_user` is idempotent: starting from
a store satisfying the uniqueness constraints, with fresh generated id and
token for the first call, two sequential calls with the same email return the
same user both times, and the resulting store holds exactly one user with
that email. -/
theorem c9_find_or_create_idempotent (db : List User)
    (email ftok fid ftok2 fid2 : String)
    (hc : dbConstraintsOk db = true)
    (hfid : ¬ fid ∈ db.map (fun v => v.id_))
    (hftok : ¬ ftok ∈ db.map (fun v => v.access_token)) :
    ∃ u db2,
      _create_and_associate_reana_user db email ftok fid =
        Except.ok (u, db2) ∧
      _create_and_associate_reana_user db2 email ftok2 fid2 =
        Except.ok (u, db2) ∧
      (db2.filter (fun v => v.email == email)).length = 1 := by
  have hnodupem : (db.map (fun v => v.email)).Nodup := by
    simp only [dbConstraintsOk, Bool.and_eq_true, distinct_iff_nodup] at hc
    exact hc.1.2
  cases hfe : db.filter (fun v => v.email == email) with
  | cons u us =>
      have hlen := filter_email_len_le_one db email hnodupem
      rw [hfe] at hlen
      simp only [List.length_cons] at hlen
      have hus : us = [] := List.length_eq_zero.mp (by omega)
      subst hus
      refine ⟨u, db, ?_, ?_, ?_⟩
      · unfold _create_and_associate_reana_user
        rw [hfe]
      · unfold _create_and_associate_reana_user
        rw [hfe]
      · rw [hfe]; rfl
  | nil =>
      have hem : ¬ email ∈ db.map (fun v => v.email) := by
        intro hmem
        obtain ⟨v, hv, hveq⟩ := List.mem_map.mp hmem
        have : v ∈ db.filter (fun v => v.email == email) :=
          List.mem_filter.mpr ⟨hv, by simp [hveq]⟩
        rw [hfe] at this
        exact absurd this (List.not_mem_nil v)
      have hcommit :
          commit db [⟨fid, email, ftok⟩] =
            Except.ok (db ++ [⟨fid, email, ftok⟩]) :=
        commit_singleton db ⟨fid, email, ftok⟩ hc hfid hem hftok
      refine ⟨⟨fid, email, ftok⟩, db ++ [⟨fid, email, ftok⟩], ?_, ?_, ?_⟩
      · unfold _create_and_associate_reana_user
        rw [hfe]
        simp only [hcommit]
      · unfold _create_and_associate_reana_user
        rw [List.filter_append, hfe]
        simp
      · rw [List.filter_append, hfe]
        simp

/-- Witness for C9 at a concrete store: provisioning "new@x.org" twice from a
one-user store yields the same user both times and a single record with that
email. -/
theorem c9_find_or_create_idempotent_witness :
    ∃ u db2,
      _create_and_associate_reana_user [⟨"id0", "old@x.org", "t0"⟩]
        "new@x.org" "t1" "id1" = Except.ok (u, db2) ∧
      _create_and_associate_reana_user db2 "new@x.org" "t2" "id2" =
        Except.ok (u, db2) ∧
      (db2.filter (fun v => v.email == "new@x.org")).length = 1 :=
  c9_find_or_create_idempotent [⟨"id0", "old@x.org", "t0"⟩]
    "new@x.org" "t1" "id1" "t2" "id2" (by decide) (by decide) (by decide)

theorem rowsToUsers_cons_ok (r : List String) (rs : List (List String))
    (pending : List User) (h : rowsToUsers (r :: rs) = Except.ok pending) :
    ∃ i e t us, rowGet r 0 = Except.ok i ∧ rowGet r 1 = Except.ok e ∧
      rowGet r 2 = Except.ok t ∧ rowsToUsers rs = Except.ok us ∧
      pending = ⟨i, e, t⟩ :: us := by
  rw [rowsToUsers] at h
  cases h0 : rowGet r 0 with
  | error e => rw [h0] at h; simp [Bind.bind, Except.bind] at h
  | ok i =>
      rw [h0] at h
      cases h1 : rowGet r 1 with
      | error e => rw [h1] at h; simp [Bind.bind, Except.bind] at h
      | ok e =>
          rw [h1] at h
          cases h2 : rowGet r 2 with
          | error e => rw [h2] at h; simp [Bind.bind, Except.bind] at h
          | ok t =>
              rw [h2] at h
              cases h3 : rowsToUsers rs with
              | error e => rw [h3] at h; simp [Bind.bind, Except.bind] at h
              | ok us =>
                  rw [h3] at h
                  simp only [Bind.bind, Except.bind, Except.ok.injEq] at h
                  exact ⟨i, e, t, us, rfl, rfl, rfl, rfl, h.symm⟩

theorem rowsToUsers_id_mem (rows : List (List String)) (pending : List User)
    (h : rowsToUsers rows = Except.ok pending) (r : List String) (i : String)
    (hr : r ∈ rows) (hi : r.get? 0 = some i) :
    i ∈ pending.map (fun u => u.id_) := by
  induction rows generalizing pending with
  | nil => cases hr
  | cons r0 rs ih =>
      obtain ⟨i0, e0, t0, us, h0, _, _, hrs, hp⟩ := rowsToUsers_cons_ok r0 rs pending h
      subst hp
      rcases List.mem_cons.mp hr with hr0 | hrtail
      · have h0' : r0.get? 0 = some i0 := by
          unfold rowGet at h0
          cases hg : r0.get? 0 with
          | none => rw [hg] at h0; cases h0
          | some s => rw [hg] at h0; injection h0 with hs; rw [hs]
        rw [hr0, h0'] at hi
        injection hi with hii
        subst hii
        simp
      · exact List.mem_cons_of_mem _ (ih us hrs hrtail)

theorem commit_error_of_shared_id (db pending : List User) (i : String)
    (h1 : i ∈ db.map (fun u => u.id_)) (h2 : i ∈ pending.map (fun u => u.id_)) :
    commit db pending = Except.error PyError.integrityError := by
  have hfalse : dbConstraintsOk (db ++ pending) = false := by
    cases hb : dbConstraintsOk (db ++ pending) with
    | false => rfl
    | true =>
        simp only [dbConstraintsOk, Bool.and_eq_true, distinct_iff_nodup,
          List.map_append] at hb
        have hnodup := hb.1.1
        rw [List.nodup_append] at hnodup
        exact absurd h2 (hnodup.2.2 h1)
  simp [commit, hfalse]

/-- Claim C3: with the admin gate passed, `_import_users` takes id, email and
access token verbatim from each row (on success the store is exactly the old
store plus one user per row, nothing auto-generated), and when any row's id
collides with an existing user the single commit fails with `IntegrityError`
and the store afterwards contains none of the import's rows. -/
theorem c3_import_atomicity (db : List User) (atok : String)
    (rows : List (List String)) (pending : List User) (adminU : User)
    (r : List String) (u : User)
    (hadmin : db.filter (fun x => x.id_ == ADMIN_USER_ID) = [adminU])
    (htok : atok = adminU.access_token)
    (hrows : rowsToUsers rows = Except.ok pending) :
    (∀ db2, _import_users db atok rows = Except.ok db2 →
      db2 = db ++ pending) ∧
    (r ∈ rows → r.get? 0 = some u.id_ → u ∈ db →
      _import_users db atok rows = Except.error PyError.integrityError ∧
      storeAfter db (_import_users db atok rows) = db) := by
  have hgate : admin_token_check db atok = Except.ok () := by
    rw [admin_token_check_found db adminU atok hadmin]
    simp [htok]
  have hred : _import_users db atok rows = commit db pending := by
    unfold _import_users
    rw [hgate, hrows]
    rfl
  constructor
  · intro db2 h
    rw [hred] at h
    unfold commit at h
    split at h
    · injection h with h2; exact h2.symm
    · cases h
  · intro hr hi hu
    have h2 := rowsToUsers_id_mem rows pending hrows r u.id_ hr hi
    have h1 : u.id_ ∈ db.map (fun v => v.id_) :=
      List.mem_map.mpr ⟨u, hu, rfl⟩
    have herr := commit_error_of_shared_id db pending u.id_ h1 h2
    rw [hred, herr]
    exact ⟨rfl, rfl⟩

/-- Witness for C3 at a concrete store: importing a row whose id is the
admin's existing id fails with `IntegrityError` and leaves the store
unchanged. -/
theorem c3_import_atomicity_witness :
    _import_users [⟨ADMIN_USER_ID, "admin@x.org", "atok"⟩] "atok"
      [["id9", "u@x.org", "t9"], [ADMIN_USER_ID, "dup@x.org", "t8"]] =
      Except.error PyError.integrityError ∧
    storeAfter [⟨ADMIN_USER_ID, "admin@x.org", "atok"⟩]
      (_import_users [⟨ADMIN_USER_ID, "admin@x.org", "atok"⟩] "atok"
        [["id9", "u@x.org", "t9"], [ADMIN_USER_ID, "dup@x.org", "t8"]]) =
      [⟨ADMIN_USER_ID, "admin@x.org", "atok"⟩] :=
  (c3_import_atomicity [⟨ADMIN_USER_ID, "admin@x.org", "atok"⟩] "atok"
    [["id9", "u@x.org", "t9"], [ADMIN_USER_ID, "dup@x.org", "t8"]]
    [⟨"id9", "u@x.org", "t9"⟩, ⟨ADMIN_USER_ID, "dup@x.org", "t8"⟩]
    ⟨ADMIN_USER_ID, "admin@x.org", "atok"⟩
    [ADMIN_USER_ID, "dup@x.org", "t8"]
    ⟨ADMIN_USER_ID, "admin@x.org", "atok"⟩
    (by rfl) rfl (by rfl)).2
    (by simp) (by rfl) (by simp)

theorem rowsToUsers_export (db : List User) :
    rowsToUsers (db.map (fun u => [u.id_, u.email, u.access_token])) =
      Except.ok db := by
  induction db with
  | nil => rfl
  | cons u us ih =>
      rw [List.map_cons, rowsToUsers]
      rw [ih]
      rfl

/-- Claim C7 counterexample: exporting a store holding only the admin record
and importing the resulting rows into an empty store does not reproduce the
triples — the import dereferences the absent admin record and dies with the
untyped `AttributeError`, so the empty store stays empty. -/
theorem c7_roundtrip_counterexample :
    _export_users [⟨ADMIN_USER_ID, "admin@x.org", "atok"⟩] "atok" =
      Except.ok [[ADMIN_USER_ID, "admin@x.org", "atok"]] ∧
    _import_users [] "atok" [[ADMIN_USER_ID, "admin@x.org", "atok"]] =
      Except.error PyError.attributeError := by
  constructor <;> rfl

/-- Claim C7 (amended): `_export_users` emits one row per user, in store
order, with columns id, email, access token and no header row; the emitted
rows decode back to exactly the original users (the data-level round trip),
but `_import_users` into a literally empty store always fails with the
untyped `AttributeError` because the empty store has no admin record to
check the token against. -/
theorem c7_export_import_roundtrip (db : List User) (atok : String)
    (adminU : User) (rows : List (List String))
    (hadmin : db.filter (fun x => x.id_ == ADMIN_USER_ID) = [adminU])
    (htok : atok = adminU.access_token) :
    _export_users db atok =
      Except.ok (db.map (fun u => [u.id_, u.email, u.access_token])) ∧
    rowsToUsers (db.map (fun u => [u.id_, u.email, u.access_token])) =
      Except.ok db ∧
    _import_users [] atok rows = Except.error PyError.attributeError := by
  have hgate : admin_token_check db atok = Except.ok () := by
    rw [admin_token_check_found db adminU atok hadmin]
    simp [htok]
  refine ⟨?_, rowsToUsers_export db, ?_⟩
  · unfold _export_users
    rw [hgate]
    rfl
  · unfold _import_users
    rw [admin_token_check_absent [] atok rfl]
    rfl

/-- Witness for C7 (amended) at a concrete one-admin store. -/
theorem c7_export_import_roundtrip_witness :
    _export_users [⟨ADMIN_USER_ID, "a@x.org", "atk"⟩] "atk" =
      Except.ok [[ADMIN_USER_ID, "a@x.org", "atk"]] ∧
    rowsToUsers [[ADMIN_USER_ID, "a@x.org", "atk"]] =
      Except.ok [⟨ADMIN_USER_ID, "a@x.org", "atk"⟩] ∧
    _import_users [] "atk" [["x", "y", "z"]] =
      Except.error PyError.attributeError :=
  c7_export_import_roundtrip [⟨ADMIN_USER_ID, "a@x.org", "atk"⟩] "atk"
    ⟨ADMIN_USER_ID, "a@x.org", "atk"⟩ [["x", "y", "z"]] (by rfl) rfl

/-- Claim C1 counterexample: a create-analysis request with the unknown
engine "not-a-real-engine" makes zero collaborator calls but answers with
status 500, not the claimed 400. -/
theorem c1_unknown_engine_counterexample :
    (create_analysis ["yadage"]
      ⟨some "not-a-real-engine", some "default", some "u1",
        [("analysis_payload", Json.obj [])]⟩
      (fun _ => Except.ok Json.null)).1.status = 500 ∧
    ¬ (create_analysis ["yadage"]
      ⟨some "not-a-real-engine", some "default", some "u1",
        [("analysis_payload", Json.obj [])]⟩
      (fun _ => Except.ok Json.null)).1.status = 400 ∧
    (create_analysis ["yadage"]
      ⟨some "not-a-real-engine", some "default", some "u1",
        [("analysis_payload", Json.obj [])]⟩
      (fun _ => Except.ok Json.null)).2 = [] :=
  ⟨rfl, by decide, rfl⟩

/-- Claim C1 (amended): a create-analysis request whose engine is not in the
configured allow-list fails before any collaborator call (the dispatch call
list is empty) with a `{"message": ...}` body — but at status 500, because
the bare `Exception` raised for an unknown engine is not a `KeyError` and so
misses the 400 branch. -/
theorem c1_unknown_engine (engines : List String) (req : AnalysisRequest)
    (rwc : DispatchCall → Except PyError Json) (e : String)
    (h1 : req.workflow_engine = some e) (h2 : engines.contains e = false) :
    create_analysis engines req rwc =
      (⟨Json.obj [("message", Json.str "Unknown workflow engine")], 500⟩,
       []) := by
  have h2' : ¬ e ∈ engines := by simpa using h2
  unfold create_analysis
  rw [h1]
  simp [h2', errorResponse, pyErrMsg]

/-- Witness for C1 (amended) with the engine "cwl" absent from an allow-list
holding only "yadage". -/
theorem c1_unknown_engine_witness :
    create_analysis ["yadage"] ⟨some "cwl", none, none, []⟩
      (fun _ => Except.ok Json.null) =
      (⟨Json.obj [("message", Json.str "Unknown workflow engine")], 500⟩,
       []) :=
  c1_unknown_engine ["yadage"] ⟨some "cwl", none, none, []⟩
    (fun _ => Except.ok Json.null) "cwl" rfl (by rfl)

/-- Claim C6: a create-analysis upload with engine "yadage" in the allow-list
and a document supplying toplevel, workflow, nparallel and preset_pars makes
exactly one collaborator call whose yadage-specific payload holds exactly
those four fields, and on downstream success the downstream result is passed
through unmodified with status 200. -/
theorem c6_yadage_dispatch (engines : List String) (req : AnalysisRequest)
    (rwc : DispatchCall → Except PyError Json) (payload t w n p res : Json)
    (hmem : "yadage" ∈ engines)
    (heng : req.workflow_engine = some "yadage")
    (hfile : req.files.lookup "analysis_payload" = some payload)
    (ht : jsonGet payload "toplevel" = Except.ok t)
    (hw : jsonGet payload "workflow" = Except.ok w)
    (hn : jsonGet payload "nparallel" = Except.ok n)
    (hp : jsonGet payload "preset_pars" = Except.ok p)
    (hcall : rwc ⟨Json.obj [("toplevel", t), ("workflow", w), ("nparallel", n),
        ("preset_pars", p)], req.organization, req.user⟩ = Except.ok res) :
    create_analysis engines req rwc =
      (⟨res, 200⟩,
       [⟨Json.obj [("toplevel", t), ("workflow", w), ("nparallel", n),
          ("preset_pars", p)], req.organization, req.user⟩]) := by
  have hbuild : build_yadage_payload payload =
      Except.ok (Json.obj [("toplevel", t), ("workflow", w), ("nparallel", n),
        ("preset_pars", p)]) := by
    unfold build_yadage_payload
    rw [ht, hw, hn, hp]
    rfl
  unfold create_analysis
  rw [heng]
  simp [hmem, hfile, hbuild, hcall]

/-- Witness for C6: the spec's end-to-end scenario with
toplevel="workflow.yaml", an empty workflow object, nparallel=2 and empty
preset_pars, against a collaborator answering with a message and a workflow
id. -/
theorem c6_yadage_dispatch_witness :
    create_analysis ["yadage"]
      ⟨some "yadage", some "default", some "u1",
        [("analysis_payload",
          Json.obj [("toplevel", Json.str "workflow.yaml"),
                    ("workflow", Json.obj []),
                    ("nparallel", Json.num 2),
                    ("preset_pars", Json.obj [])])]⟩
      (fun _ => Except.ok (Json.obj
        [("message", Json.str "Analysis successfully launched"),
         ("workflow_id", Json.str "wid-1")])) =
      (⟨Json.obj [("message", Json.str "Analysis successfully launched"),
                  ("workflow_id", Json.str "wid-1")], 200⟩,
       [⟨Json.obj [("toplevel", Json.str "workflow.yaml"),
                   ("workflow", Json.obj []),
                   ("nparallel", Json.num 2),
                   ("preset_pars", Json.obj [])],
         some "default", some "u1"⟩]) :=
  c6_yadage_dispatch ["yadage"]
    ⟨some "yadage", some "default", some "u1",
      [("analysis_payload",
        Json.obj [("toplevel", Json.str "workflow.yaml"),
                  ("workflow", Json.obj []),
                  ("nparallel", Json.num 2),
                  ("preset_pars", Json.obj [])])]⟩
    (fun _ => Except.ok (Json.obj
      [("message", Json.str "Analysis successfully launched"),
       ("workflow_id", Json.str "wid-1")]))
    (Json.obj [("toplevel", Json.str "workflow.yaml"),
               ("workflow", Json.obj []),
               ("nparallel", Json.num 2),
               ("preset_pars", Json.obj [])])
    (Json.str "workflow.yaml") (Json.obj []) (Json.num 2) (Json.obj [])
    (Json.obj [("message", Json.str "Analysis successfully launched"),
               ("workflow_id", Json.str "wid-1")])
    (by simp) rfl rfl rfl rfl rfl rfl rfl

/-- Claim C2 counterexample: a webhook whose object_kind is "tag_push" (all
other fields present) fails with the untyped `UnboundLocalError` from the
unassigned branch variable, not with the typed unsupported-event failure the
spec names. -/
theorem c2_unsupported_event_counterexample :
    _get_reana_yaml_from_gitlab
      (Json.obj [("object_kind", Json.str "tag_push"),
                 ("project", Json.obj [("id", Json.num 7),
                    ("default_branch", Json.str "master"),
                    ("path_with_namespace", Json.str "grp/proj")]),
                 ("checkout_sha", Json.str "abc123")])
      "gl-token" (fun _ => Except.ok ⟨200, "specbytes"⟩)
      (fun _ => Except.ok (Json.str "parsed")) =
      Except.error PyError.unboundLocalError ∧
    PyError.unboundLocalError ≠ PyError.unsupportedEventError :=
  ⟨rfl, by decide⟩

/-- Claim C2 (amended): for a push event the resolved branch is the
project's default branch and the commit is checkout_sha; for a merge_request
event the branch is object_attributes.source_branch and the commit is
object_attributes.last_commit.id; any other object_kind fails — but with the
untyped `UnboundLocalError` raised when the unassigned branch variable is
interpolated into the fetch URL (after the secret fetch and project-id
lookup), not with a typed unsupported-event error. -/
theorem c2_webhook_resolution (hook proj oa lc defB sha srcB cid pid path : Json)
    (gtok : String) (hg : String → Except PyError RawResponse)
    (yl : String → Except PyError Json) (resp : RawResponse) (spec : Json)
    (hproj : jsonGet hook "project" = Except.ok proj)
    (hpid : jsonGet proj "id" = Except.ok pid)
    (hpath : jsonGet proj "path_with_namespace" = Except.ok path) :
    (jsonGet hook "object_kind" = Except.ok (Json.str "push") →
     jsonGet proj "default_branch" = Except.ok defB →
     jsonGet hook "checkout_sha" = Except.ok sha →
     hg (gitlab_api_url pid defB gtok) = Except.ok resp →
     yl resp.content = Except.ok spec →
     _get_reana_yaml_from_gitlab hook gtok hg yl =
       Except.ok (spec, path, defB, sha)) ∧
    (jsonGet hook "object_kind" = Except.ok (Json.str "merge_request") →
     jsonGet hook "object_attributes" = Except.ok oa →
     jsonGet oa "source_branch" = Except.ok srcB →
     jsonGet oa "last_commit" = Except.ok lc →
     jsonGet lc "id" = Except.ok cid →
     hg (gitlab_api_url pid srcB gtok) = Except.ok resp →
     yl resp.content = Except.ok spec →
     _get_reana_yaml_from_gitlab hook gtok hg yl =
       Except.ok (spec, path, srcB, cid)) ∧
    (∀ kind, jsonGet hook "object_kind" = Except.ok kind →
     kind ≠ Json.str "push" → kind ≠ Json.str "merge_request" →
     _get_reana_yaml_from_gitlab hook gtok hg yl =
       Except.error PyError.unboundLocalError) := by
  refine ⟨?_, ?_, ?_⟩
  · intro hkind hdefB hsha hhg hyl
    unfold _get_reana_yaml_from_gitlab
    simp only [hkind, hproj, hdefB, hsha, hpid, hhg, hyl, hpath,
      Bind.bind, Except.bind, pure, Except.pure]
  · intro hkind hoa hsrcB hlc hcid hhg hyl
    unfold _get_reana_yaml_from_gitlab
    simp only [hkind, hoa, hsrcB, hlc, hcid, hproj, hpid, hhg, hyl, hpath,
      Bind.bind, Except.bind, pure, Except.pure]
  · intro kind hkind hne1 hne2
    unfold _get_reana_yaml_from_gitlab
    simp only [hkind, hproj, hpid, Bind.bind, Except.bind]
    cases kind with
    | str s =>
        have hs1 : s ≠ "push" := fun h => hne1 (by rw [h])
        have hs2 : s ≠ "merge_request" := fun h => hne2 (by rw [h])
        rfl
    | null => rfl
    | bool b => cases b <;> rfl
    | num n => rfl
    | arr es => rfl
    | obj fs => rfl

/-- Witness for C2 (amended): a concrete push event resolves to (default
branch, checkout sha); a concrete merge-request event resolves to (source
branch, last-commit id); a concrete "issue" event dies with the untyped
`UnboundLocalError`. -/
theorem c2_webhook_resolution_witness :
    _get_reana_yaml_from_gitlab
      (Json.obj [("object_kind", Json.str "push"),
                 ("project", Json.obj [("id", Json.num 7),
                    ("default_branch", Json.str "master"),
                    ("path_with_namespace", Json.str "grp/proj")]),
                 ("checkout_sha", Json.str "sha-1")])
      "tokA" (fun _ => Except.ok ⟨200, "raw1"⟩)
      (fun _ => Except.ok (Json.str "parsed1")) =
      Except.ok (Json.str "parsed1", Json.str "grp/proj",
                 Json.str "master", Json.str "sha-1") ∧
    _get_reana_yaml_from_gitlab
      (Json.obj [("object_kind", Json.str "merge_request"),
                 ("project", Json.obj [("id", Json.num 8),
                    ("path_with_namespace", Json.str "g/p2")]),
                 ("object_attributes", Json.obj
                    [("source_branch", Json.str "feat"),
                     ("last_commit", Json.obj [("id", Json.str "sha-2")])])])
      "tokB" (fun _ => Except.ok ⟨200, "raw2"⟩)
      (fun _ => Except.ok (Json.str "parsed2")) =
      Except.ok (Json.str "parsed2", Json.str "g/p2",
                 Json.str "feat", Json.str "sha-2") ∧
    _get_reana_yaml_from_gitlab
      (Json.obj [("object_kind", Json.str "issue"),
                 ("project", Json.obj [("id", Json.num 9),
                    ("path_with_namespace", Json.str "g/p3")])])
      "tokC" (fun _ => Except.ok ⟨200, "raw3"⟩)
      (fun _ => Except.ok (Json.str "parsed3")) =
      Except.error PyError.unboundLocalError :=
  ⟨(c2_webhook_resolution
      (Json.obj [("object_kind", Json.str "push"),
                 ("project", Json.obj [("id", Json.num 7),
                    ("default_branch", Json.str "master"),
                    ("path_with_namespace", Json.str "grp/proj")]),
                 ("checkout_sha", Json.str "sha-1")])
      (Json.obj [("id", Json.num 7), ("default_branch", Json.str "master"),
                 ("path_with_namespace", Json.str "grp/proj")])
      Json.null Json.null (Json.str "master") (Json.str "sha-1")
      Json.null Json.null (Json.num 7) (Json.str "grp/proj")
      "tokA" (fun _ => Except.ok ⟨200, "raw1"⟩)
      (fun _ => Except.ok (Json.str "parsed1"))
      ⟨200, "raw1"⟩ (Json.str "parsed1")
      rfl rfl rfl).1 rfl rfl rfl rfl rfl,
   (c2_webhook_resolution
      (Json.obj [("object_kind", Json.str "merge_request"),
                 ("project", Json.obj [("id", Json.num 8),
                    ("path_with_namespace", Json.str "g/p2")]),
                 ("object_attributes", Json.obj
                    [("source_branch", Json.str "feat"),
                     ("last_commit", Json.obj [("id", Json.str "sha-2")])])])
      (Json.obj [("id", Json.num 8), ("path_with_namespace", Json.str "g/p2")])
      (Json.obj [("source_branch", Json.str "feat"),
                 ("last_commit", Json.obj [("id", Json.str "sha-2")])])
      (Json.obj [("id", Json.str "sha-2")])
      Json.null Json.null (Json.str "feat") (Json.str "sha-2")
      (Json.num 8) (Json.str "g/p2")
      "tokB" (fun _ => Except.ok ⟨200, "raw2"⟩)
      (fun _ => Except.ok (Json.str "parsed2"))
      ⟨200, "raw2"⟩ (Json.str "parsed2")
      rfl rfl rfl).2.1 rfl rfl rfl rfl rfl rfl rfl,
   (c2_webhook_resolution
      (Json.obj [("object_kind", Json.str "issue"),
                 ("project", Json.obj [("id", Json.num 9),
                    ("path_with_namespace", Json.str "g/p3")])])
      (Json.obj [("id", Json.num 9), ("path_with_namespace", Json.str "g/p3")])
      Json.null Json.null Json.null Json.null Json.null Json.null
      (Json.num 9) (Json.str "g/p3")
      "tokC" (fun _ => Except.ok ⟨200, "raw3"⟩)
      (fun _ => Except.ok (Json.str "parsed3"))
      ⟨200, "raw3"⟩ (Json.str "parsed3")
      rfl rfl rfl).2.2 (Json.str "issue") rfl
      (by intro h; injection h with h2; exact absurd h2 (by decide))
      (by intro h; injection h with h2; exact absurd h2 (by decide))⟩

/-- Claim C4 counterexample: for a push webhook whose raw-file fetch answers
with HTTP status 500, the code raises no `UpstreamFetchError` — it feeds the
error body to the parser and returns the parse result as the specification,
so a "specification" is returned although the fetch did not succeed. -/
theorem c4_fetch_counterexample :
    _get_reana_yaml_from_gitlab
      (Json.obj [("object_kind", Json.str "push"),
                 ("project", Json.obj [("id", Json.num 4),
                    ("default_branch", Json.str "main"),
                    ("path_with_namespace", Json.str "grp/proj4")]),
                 ("checkout_sha", Json.str "sha-4")])
      "tokD" (fun _ => Except.ok ⟨500, "error-page"⟩)
      (fun _ => Except.ok (Json.str "parsed-error-page")) =
      Except.ok (Json.str "parsed-error-page", Json.str "grp/proj4",
                 Json.str "main", Json.str "sha-4") :=
  rfl

/-- Claim C4 (amended): the webhook fetch-and-parse path never raises the
typed `UpstreamFetchError` / `MalformedSpecError` taxonomy: a transport
error from `requests.get` propagates verbatim and untyped; when the call
returns a response, its HTTP status code is never inspected — the body goes
to the YAML parser unconditionally and, whatever the status, a successful
parse is returned as the specification; a parse failure propagates the
parser's own untyped error verbatim. -/
theorem c4_fetch_untyped (hook proj defB sha pid path : Json)
    (gtok : String) (hg : String → Except PyError RawResponse)
    (yl : String → Except PyError Json)
    (hkind : jsonGet hook "object_kind" = Except.ok (Json.str "push"))
    (hproj : jsonGet hook "project" = Except.ok proj)
    (hdefB : jsonGet proj "default_branch" = Except.ok defB)
    (hsha : jsonGet hook "checkout_sha" = Except.ok sha)
    (hpid : jsonGet proj "id" = Except.ok pid)
    (hpath : jsonGet proj "path_with_namespace" = Except.ok path) :
    (∀ e, hg (gitlab_api_url pid defB gtok) = Except.error e →
      _get_reana_yaml_from_gitlab hook gtok hg yl = Except.error e) ∧
    (∀ resp e, hg (gitlab_api_url pid defB gtok) = Except.ok resp →
      yl resp.content = Except.error e →
      _get_reana_yaml_from_gitlab hook gtok hg yl = Except.error e) ∧
    (∀ resp spec, hg (gitlab_api_url pid defB gtok) = Except.ok resp →
      yl resp.content = Except.ok spec →
      _get_reana_yaml_from_gitlab hook gtok hg yl =
        Except.ok (spec, path, defB, sha)) := by
  refine ⟨?_, ?_, ?_⟩
  · intro e herr
    unfold _get_reana_yaml_from_gitlab
    simp only [hkind, hproj, hdefB, hsha, hpid, herr,
      Bind.bind, Except.bind, pure, Except.pure]
  · intro resp e hresp herr
    unfold _get_reana_yaml_from_gitlab
    simp only [hkind, hproj, hdefB, hsha, hpid, hresp, herr,
      Bind.bind, Except.bind, pure, Except.pure]
  · intro resp spec hresp hspec
    unfold _get_reana_yaml_from_gitlab
    simp only [hkind, hproj, hdefB, hsha, hpid, hresp, hspec, hpath,
      Bind.bind, Except.bind, pure, Except.pure]

/-- Witness for C4 (amended) at a concrete push webhook: a transport error
propagates verbatim; a parse failure propagates verbatim; a response with
non-success status 404 still yields the parsed body as the specification. -/
theorem c4_fetch_untyped_witness :
    _get_reana_yaml_from_gitlab
      (Json.obj [("object_kind", Json.str "push"),
                 ("project", Json.obj [("id", Json.num 5),
                    ("default_branch", Json.str "dev"),
                    ("path_with_namespace", Json.str "grp/proj5")]),
                 ("checkout_sha", Json.str "sha-5")])
      "tokE" (fun _ => Except.error (PyError.exc "ConnectionError"))
      (fun _ => Except.ok Json.null) =
      Except.error (PyError.exc "ConnectionError") ∧
    _get_reana_yaml_from_gitlab
      (Json.obj [("object_kind", Json.str "push"),
                 ("project", Json.obj [("id", Json.num 5),
                    ("default_branch", Json.str "dev"),
                    ("path_with_namespace", Json.str "grp/proj5")]),
                 ("checkout_sha", Json.str "sha-5")])
      "tokE" (fun _ => Except.ok ⟨200, "not yaml"⟩)
      (fun _ => Except.error (PyError.exc "ScannerError")) =
      Except.error (PyError.exc "ScannerError") ∧
    _get_reana_yaml_from_gitlab
      (Json.obj [("object_kind", Json.str "push"),
                 ("project", Json.obj [("id", Json.num 5),
                    ("default_branch", Json.str "dev"),
                    ("path_with_namespace", Json.str "grp/proj5")]),
                 ("checkout_sha", Json.str "sha-5")])
      "tokE" (fun _ => Except.ok ⟨404, "missing"⟩)
      (fun _ => Except.ok (Json.str "parsed-missing")) =
      Except.ok (Json.str "parsed-missing", Json.str "grp/proj5",
                 Json.str "dev", Json.str "sha-5") :=
  ⟨(c4_fetch_untyped
      (Json.obj [("object_kind", Json.str "push"),
                 ("project", Json.obj [("id", Json.num 5),
                    ("default_branch", Json.str "dev"),
                    ("path_with_namespace", Json.str "grp/proj5")]),
                 ("checkout_sha", Json.str "sha-5")])
      (Json.obj [("id", Json.num 5), ("default_branch", Json.str "dev"),
                 ("path_with_namespace", Json.str "grp/proj5")])
      (Json.str "dev") (Json.str "sha-5") (Json.num 5) (Json.str "grp/proj5")
      "tokE" (fun _ => Except.error (PyError.exc "ConnectionError"))
      (fun _ => Except.ok Json.null)
      rfl rfl rfl rfl rfl rfl).1 (PyError.exc "ConnectionError") rfl,
   (c4_fetch_untyped
      (Json.obj [("object_kind", Json.str "push"),
                 ("project", Json.obj [("id", Json.num 5),
                    ("default_branch", Json.str "dev"),
                    ("path_with_namespace", Json.str "grp/proj5")]),
                 ("checkout_sha", Json.str "sha-5")])
      (Json.obj [("id", Json.num 5), ("default_branch", Json.str "dev"),
                 ("path_with_namespace", Json.str "grp/proj5")])
      (Json.str "dev") (Json.str "sha-5") (Json.num 5) (Json.str "grp/proj5")
      "tokE" (fun _ => Except.ok ⟨200, "not yaml"⟩)
      (fun _ => Except.error (PyError.exc "ScannerError"))
      rfl rfl rfl rfl rfl rfl).2.1 ⟨200, "not yaml"⟩
      (PyError.exc "ScannerError") rfl rfl,
   (c4_fetch_untyped
      (Json.obj [("object_kind", Json.str "push"),
                 ("project", Json.obj [("id", Json.num 5),
                    ("default_branch", Json.str "dev"),
                    ("path_with_namespace", Json.str "grp/proj5")]),
                 ("checkout_sha", Json.str "sha-5")])
      (Json.obj [("id", Json.num 5), ("default_branch", Json.str "dev"),
                 ("path_with_namespace", Json.str "grp/proj5")])
      (Json.str "dev") (Json.str "sha-5") (Json.num 5) (Json.str "grp/proj5")
      "tokE" (fun _ => Except.ok ⟨404, "missing"⟩)
      (fun _ => Except.ok (Json.str "parsed-missing"))
      rfl rfl rfl rfl rfl rfl).2.2 ⟨404, "missing"⟩
      (Json.str "parsed-missing") rfl rfl⟩
